import Mathlib

/-!
Verification of the state-database and error-classification layer of the
zkevm circuit-input builder.

The state database (`Account`, `StateDB` and their operations) is a direct
shallow embedding of `eth-types/src/state_db.rs`.  Hash maps and hash sets
become key-unique association lists and duplicate-free lists; 256-bit words,
hashes and addresses become `Nat` (no operation modelled here overflows or
truncates).  The error-classification engine `get_step_err` lives in a part
of `bus-mapping/circuit_input_builder` whose implementation is not in the
sources at hand (only its tests are), so it is modelled from the spec; the
per-test detection predicates (`check_err_depth`, `result`, ...) are embedded
from `bus-mapping/src/circuit_input_builder/tracer_tests.rs`.
-/

/-- Lookup in an association list: the value at the first pair whose key
matches, mirroring map lookup on a key-unique `HashMap`. -/
def lookupA {α β : Type} [DecidableEq α] (k : α) : List (α × β) → Option β
  | [] => none
  | (k', v) :: t => if k' = k then some v else lookupA k t

/-- Insert into an association list, replacing in place when the key is
present and appending otherwise: mirrors `HashMap::insert` on a key-unique
list. -/
def insertA {α β : Type} [DecidableEq α] (k : α) (v : β) : List (α × β) → List (α × β)
  | [] => [(k, v)]
  | (k', v') :: t => if k' = k then (k, v) :: t else (k', v') :: insertA k v t

/-- Apply a function to the value at a key, if present: mirrors mutating a
`HashMap` entry through a reference obtained by lookup. -/
def modifyA {α β : Type} [DecidableEq α] (k : α) (f : β → β) : List (α × β) → List (α × β)
  | [] => []
  | (k', v') :: t => if k' = k then (k', f v') :: t else (k', v') :: modifyA k f t

/-- Insert into a set represented as a duplicate-free list: mirrors
`HashSet::insert`. -/
def insertS {α : Type} [DecidableEq α] (x : α) (l : List α) : List α :=
  if x ∈ l then l else x :: l

/-- Modelled from the spec: the fixed, precomputed hash of the empty byte
sequence (`CodeDB::hash(&[])`; the hash function itself, `utils::hash_code`,
is not in the sources at hand).  The spec only requires it to be a fixed
nonzero constant ("codehash inside statedb should never be 0"), so any fixed
nonzero value represents it. -/
def EMPTY_CODE_HASH : Nat := 1

/-- Modelled from the spec: the fixed keccak hash of empty code
(`KECCAK_CODE_HASH_EMPTY`, defined outside the sources at hand); again only
its fixedness matters here. -/
def KECCAK_EMPTY_CODE_HASH : Nat := 2

/-- `Account` of `eth-types/src/state_db.rs`: nonce, balance, storage map,
the two code-hash fields (poseidon for lookups, keccak for compatibility) and
code size. -/
structure Account where
  nonce : Nat
  balance : Nat
  storage : List (Nat × Nat)
  code_hash : Nat
  keccak_code_hash : Nat
  code_size : Nat
deriving DecidableEq, Repr

/-- `Account::zero`: the empty account, all values zero, code hashes set to
the empty-code hashes. -/
def Account.zero : Account :=
  { nonce := 0, balance := 0, storage := [],
    code_hash := EMPTY_CODE_HASH, keccak_code_hash := KECCAK_EMPTY_CODE_HASH,
    code_size := 0 }

/-- `Account::is_empty`: nonce, balance zero and code hash equal to the
empty-code hash (the `debug_assert`s in the source are assertions, not
semantics). -/
def Account.is_empty (a : Account) : Bool :=
  a.nonce == 0 && a.balance == 0 && a.code_hash == EMPTY_CODE_HASH

/-- `Account::code_hash_read`: the expected read code hash, zero for an
empty (non-existent) account, the stored code hash otherwise. -/
def Account.code_hash_read (a : Account) : Nat :=
  if a.is_empty then 0 else a.code_hash

/-- `StateDB` of `eth-types/src/state_db.rs`: the committed account map plus
the transaction-scoped fields (access lists, dirty storage, transient
storage, destructed and touched account sets, refund counter). -/
structure StateDB where
  state : List (Nat × Account)
  access_list_account : List Nat
  access_list_account_storage : List (Nat × Nat)
  dirty_storage : List ((Nat × Nat) × Nat)
  transient_storage : List ((Nat × Nat) × Nat)
  destructed_account : List Nat
  touched_account : List Nat
  refund : Nat
deriving DecidableEq, Repr

/-- `StateDB::new` (via `Default`): every map and set empty, refund zero. -/
def StateDB.new : StateDB :=
  { state := [], access_list_account := [], access_list_account_storage := [],
    dirty_storage := [], transient_storage := [], destructed_account := [],
    touched_account := [], refund := 0 }

/-- `StateDB::set_account`. -/
def StateDB.set_account (s : StateDB) (addr : Nat) (acc : Account) : StateDB :=
  { s with state := insertA addr acc s.state }

/-- `StateDB::get_account`: `(true, acc)` when present, `(false, zero)`
(the shared `ACCOUNT_ZERO`) when absent; never mutates. -/
def StateDB.get_account (s : StateDB) (addr : Nat) : Bool × Account :=
  match lookupA addr s.state with
  | some acc => (true, acc)
  | none => (false, Account.zero)

/-- State effect of `StateDB::get_account_mut`: insert a zero account when
the address is absent (auto-vivification). -/
def vivify (addr : Nat) (st : List (Nat × Account)) : List (Nat × Account) :=
  match lookupA addr st with
  | some _ => st
  | none => insertA addr Account.zero st

/-- `StateDB::get_account_mut`, split into the `found` flag and the
possibly-vivified state. -/
def StateDB.get_account_mut (s : StateDB) (addr : Nat) : Bool × StateDB :=
  ((lookupA addr s.state).isSome, { s with state := vivify addr s.state })

/-- `StateDB::get_committed_storage`: storage of the committed account,
`(false, 0)` when the account or the key is missing; never consults the
dirty set. -/
def StateDB.get_committed_storage (s : StateDB) (addr key : Nat) : Bool × Nat :=
  match lookupA key (s.get_account addr).2.storage with
  | some v => (true, v)
  | none => (false, 0)

/-- `StateDB::get_storage`: the dirty (pending) value when one exists, else
the committed storage. -/
def StateDB.get_storage (s : StateDB) (addr key : Nat) : Bool × Nat :=
  match lookupA (addr, key) s.dirty_storage with
  | some v => (true, v)
  | none => s.get_committed_storage addr key

/-- `StateDB::set_storage`: writes into the dirty set only. -/
def StateDB.set_storage (s : StateDB) (addr key value : Nat) : StateDB :=
  { s with dirty_storage := insertA (addr, key) value s.dirty_storage }

/-- `StateDB::get_transient_storage`: the separate transient map,
`(false, 0)` when the key is missing. -/
def StateDB.get_transient_storage (s : StateDB) (addr key : Nat) : Bool × Nat :=
  match lookupA (addr, key) s.transient_storage with
  | some v => (true, v)
  | none => (false, 0)

/-- `StateDB::set_transient_storage`: writes into the transient map only. -/
def StateDB.set_transient_storage (s : StateDB) (addr key value : Nat) : StateDB :=
  { s with transient_storage := insertA (addr, key) value s.transient_storage }

/-- `StateDB::clear_transient_storage`: replace the transient map by a fresh
empty one. -/
def StateDB.clear_transient_storage (s : StateDB) : StateDB :=
  { s with transient_storage := [] }

/-- State effect of `StateDB::get_storage_mut`: vivify the account, then
insert a zero value at the key when it is absent. -/
def vivifyStorage (addr key : Nat) (st : List (Nat × Account)) : List (Nat × Account) :=
  let st1 := vivify addr st
  match lookupA addr st1 with
  | some acc =>
    match lookupA key acc.storage with
    | some _ => st1
    | none => insertA addr { acc with storage := insertA key 0 acc.storage } st1
  | none => st1

/-- One iteration of the dirty-storage fold in `StateDB::commit_tx`:
`let (_, ptr) = self.get_storage_mut(&addr, &key); *ptr = value;` — vivify
the slot, then overwrite it with the dirty value. -/
def commitDirtyStepState (addr key value : Nat) (st : List (Nat × Account)) :
    List (Nat × Account) :=
  modifyA addr (fun acc => { acc with storage := insertA key value acc.storage })
    (vivifyStorage addr key st)

/-- One iteration of the destructed-account fold in `StateDB::commit_tx`:
`let (_, account) = self.get_account_mut(&addr); *account = ACCOUNT_ZERO.clone();`
— vivify the account, then overwrite it with the zero account. -/
def zeroDestructedState (addr : Nat) (st : List (Nat × Account)) : List (Nat × Account) :=
  insertA addr Account.zero (vivify addr st)

/-- `StateDB::destruct_account`: immediately zero the live account and mark
the address destructed. -/
def StateDB.destruct_account (s : StateDB) (addr : Nat) : StateDB :=
  { s with state := insertA addr Account.zero s.state,
           destructed_account := insertS addr s.destructed_account }

/-- `StateDB::set_refund`. -/
def StateDB.set_refund (s : StateDB) (value : Nat) : StateDB :=
  { s with refund := value }

/-- The dirty-storage loop of `StateDB::commit_tx`: fold every entry of the
dirty map into the committed account map, in iteration order. -/
def dirtyFold (st : List (Nat × Account)) (l : List ((Nat × Nat) × Nat)) :
    List (Nat × Account) :=
  l.foldl (fun st e => commitDirtyStepState e.1.1 e.1.2 e.2 st) st

/-- The destructed-account loop of `StateDB::commit_tx`: overwrite the
account at every destructed address with the zero account, in iteration
order. -/
def destructedFold (st : List (Nat × Account)) (l : List Nat) :
    List (Nat × Account) :=
  l.foldl (fun st addr => zeroDestructedState addr st) st

/-- `StateDB::commit_tx`, field by field in source order: the two access
lists are replaced by fresh empty sets; every entry of (a clone of) the
dirty map is folded into committed storage through `get_storage_mut`; the
dirty map and the touched set are replaced by fresh empty ones; every
address of (a clone of) the destructed set has its account overwritten with
`ACCOUNT_ZERO` through `get_account_mut`; the refund counter is reset to 0.
The transient map and the destructed set itself are not touched. -/
def StateDB.commit_tx (s : StateDB) : StateDB :=
  { state := destructedFold (dirtyFold s.state s.dirty_storage) s.destructed_account,
    access_list_account := [],
    access_list_account_storage := [],
    dirty_storage := [],
    transient_storage := s.transient_storage,
    destructed_account := s.destructed_account,
    touched_account := [],
    refund := 0 }

/-! ## Trace steps and the error taxonomy -/

/-- The opcodes referenced by the error-classification rules and the tracer
tests (`eth_types::evm_types::OpcodeId`, restricted to what is used). -/
inductive OpcodeId where
  | CALL | CALLCODE | DELEGATECALL | STATICCALL | CREATE | CREATE2
  | JUMP | JUMPI | REVERT | RETURNDATACOPY | RETURN
  | SSTORE | SELFDESTRUCT | LOG0
  | PUSH1 | PUSH2 | STOP | SWAP5 | MSTORE
deriving DecidableEq, Repr

/-- The raw trace errors the reference tracer attaches to a step before it
executes (`GethExecError`, restricted to the kinds the classification rules
pass through). -/
inductive GethExecError where
  | stackOverflow (stack_len limit : Nat)
  | stackUnderflow (stack_len required : Nat)
  | invalidOpcode
  | gasUintOverflow
deriving DecidableEq, Repr

/-- The `limit` field a raw stack-overflow error reports, when there is
one. -/
def GethExecError.stackLimit : GethExecError → Option Nat
  | .stackOverflow _ limit => some limit
  | _ => none

/-- The `stack_len` field a raw stack-overflow error reports, when there is
one. -/
def GethExecError.stackLen : GethExecError → Option Nat
  | .stackOverflow stack_len _ => some stack_len
  | _ => none

/-- Sub-kinds of the depth-limit error (`error::DepthError`). -/
inductive DepthError where
  | call | create | create2
deriving DecidableEq, Repr

/-- Sub-kinds of the insufficient-balance error
(`error::InsufficientBalanceError`). -/
inductive InsufficientBalanceError where
  | call | create | create2
deriving DecidableEq, Repr

/-- Sub-kinds of the address-collision error
(`error::ContractAddressCollisionError`). -/
inductive ContractAddressCollisionError where
  | create | create2
deriving DecidableEq, Repr

/-- Sub-kinds of the out-of-gas error (`error::OogError`, restricted to the
kind the classification rules produce). -/
inductive OogError where
  | staticMemoryExpansion
deriving DecidableEq, Repr

/-- The fixed, closed output taxonomy of the classification engine
(`error::ExecError`). -/
inductive ExecError where
  | depth (e : DepthError)
  | insufficientBalance (e : InsufficientBalanceError)
  | contractAddressCollision (e : ContractAddressCollisionError)
  | invalidJump
  | returnDataOutOfBounds
  | codeStoreOutOfGas
  | invalidCreationCode
  | maxCodeSizeExceeded
  | writeProtection
  | stackOverflow
  | stackUnderflow
  | invalidOpcode
  | oog (e : OogError)
deriving DecidableEq, Repr

/-- One record of the raw execution trace (`GethExecStep`, the fields the
classification rules consult).  The stack is listed bottom first, so the top
of the stack is the last element, mirroring `Stack(Vec<Word>)`; memory is a
byte list. -/
structure GethExecStep where
  op : OpcodeId
  error : Option GethExecError
  depth : Nat
  gas : Nat
  stack : List Nat
  memory : List Nat
deriving DecidableEq, Repr

/-- `Stack::last`: the top of the stack (`0` when empty, as
`unwrap_or_else(Word::zero)` in the call sites modelled here). -/
def stackLast (st : List Nat) : Nat :=
  st.getLast?.getD 0

/-- `Stack::nth_last n`: the `n`-th element from the top of the stack (`0`
when out of range). -/
def nthLast (st : List Nat) (n : Nat) : Nat :=
  st.reverse.getD n 0

/-- `result` of `tracer_tests.rs`: the value at the top of the following
step's stack, or zero when there is no following step — the success flag a
call-family or creation opcode pushed. -/
def result (step : Option GethExecStep) : Nat :=
  match step with
  | some s => stackLast s.stack
  | none => 0

/-- `check_err_depth` of `tracer_tests.rs`: a call-family or creation opcode
with no reported raw error, a zero result on the following step, and call
depth already 1025. -/
def check_err_depth (step : GethExecStep) (next : Option GethExecStep) : Bool :=
  (match step.op with
   | .CALL | .CALLCODE | .DELEGATECALL | .STATICCALL | .CREATE | .CREATE2 => true
   | _ => false)
  && step.error == none
  && result next == 0
  && step.depth == 1025

/-- `check_err_code_store_out_of_gas` of `tracer_tests.rs`: a RETURN with no
reported raw error, a zero result on the following step, and
`200 * length > gas` for the deployed-code length taken from the second
stack operand. -/
def check_err_code_store_out_of_gas (step : GethExecStep) (next : Option GethExecStep) : Bool :=
  step.op == .RETURN
  && step.error == none
  && result next == 0
  && decide (step.gas < 200 * nthLast step.stack 1)

/-- `check_err_invalid_code` of `tracer_tests.rs`: a RETURN with no reported
raw error, a zero result on the following step, a positive deployed-code
length, and memory holding `0xef` at the returned offset. -/
def check_err_invalid_code (step : GethExecStep) (next : Option GethExecStep) : Bool :=
  step.op == .RETURN
  && step.error == none
  && result next == 0
  && decide (0 < nthLast step.stack 1)
  && !step.memory.isEmpty
  && step.memory[nthLast step.stack 0]? == some 0xef

/-- `check_err_execution_reverted` of `tracer_tests.rs`: a REVERT with no
reported raw error, a zero result on the following step, and a depth change
across the step boundary. -/
def check_err_execution_reverted (step : GethExecStep) (next : Option GethExecStep) : Bool :=
  step.op == .REVERT
  && step.error == none
  && result next == 0
  && step.depth != (next.map (fun s => s.depth)).getD 0

/-- `check_err_invalid_jump` of `tracer_tests.rs`: a JUMP or JUMPI with no
reported raw error, a zero result on the following step, and a depth change
across the step boundary. -/
def check_err_invalid_jump (step : GethExecStep) (next : Option GethExecStep) : Bool :=
  (match step.op with | .JUMP | .JUMPI => true | _ => false)
  && step.error == none
  && result next == 0
  && step.depth != (next.map (fun s => s.depth)).getD 0

/-! ## The error-classification engine, modelled from the spec -/

/-- Modelled from the spec: the call-stack/state-database context the
classification engine consults (`get_step_err` runs on a
`CircuitInputStateRef`, whose implementation is not in the sources at hand).
`callerBalance` is the balance of the caller/creator account, compared for
the insufficient-balance check; `isCreateFrame` and `isStaticFrame` are the
flags of the current call frame; `createCollision` states that an account
with nonzero nonce or nonzero code size already exists at the derived
creation address. -/
structure StepContext where
  callerBalance : Nat
  isCreateFrame : Bool
  isStaticFrame : Bool
  createCollision : Bool
deriving DecidableEq, Repr

/-- A call-family or creation opcode. -/
def isCallOrCreateOp : OpcodeId → Bool
  | .CALL | .CALLCODE | .DELEGATECALL | .STATICCALL | .CREATE | .CREATE2 => true
  | _ => false

/-- A creation opcode. -/
def isCreateOp : OpcodeId → Bool
  | .CREATE | .CREATE2 => true
  | _ => false

/-- A state-mutating opcode other than the call family, for the
write-protection rule. -/
def isStateMutatingOp : OpcodeId → Bool
  | .SSTORE | .SELFDESTRUCT | .LOG0 => true
  | _ => false

/-- The value a call-family or creation opcode transfers, read from its
stack operands: the third operand from the top for CALL and CALLCODE, the
top operand for CREATE and CREATE2, zero for the valueless DELEGATECALL and
STATICCALL. -/
def callValue (step : GethExecStep) : Nat :=
  match step.op with
  | .CALL | .CALLCODE => nthLast step.stack 2
  | .CREATE | .CREATE2 => nthLast step.stack 0
  | _ => 0

/-- The depth-limit sub-kind an opcode produces. -/
def depthKind : OpcodeId → DepthError
  | .CREATE => .create
  | .CREATE2 => .create2
  | _ => .call

/-- The insufficient-balance sub-kind an opcode produces. -/
def balanceKind : OpcodeId → InsufficientBalanceError
  | .CREATE => .create
  | .CREATE2 => .create2
  | _ => .call

/-- The address-collision sub-kind a creation opcode produces. -/
def collisionKind : OpcodeId → ContractAddressCollisionError
  | .CREATE => .create
  | _ => .create2

/-- The maximum permitted deployed contract size. -/
def MAX_CODE_SIZE : Nat := 0x6000

/-- The reserved first byte that makes deployed code invalid. -/
def INVALID_CODE_FIRST_BYTE : Nat := 0xef

/-- Rule 8 of the spec: the fixed one-to-one mapping of raw trace errors
into the output taxonomy, with gas-uint overflow remapped to the
out-of-gas/static-memory-expansion kind. -/
def mapGethError : GethExecError → ExecError
  | .stackOverflow _ _ => .stackOverflow
  | .stackUnderflow _ _ => .stackUnderflow
  | .invalidOpcode => .invalidOpcode
  | .gasUintOverflow => .oog .staticMemoryExpansion

/-- Modelled from the spec: the error-classification engine `get_step_err`
(its implementation in `bus-mapping/circuit_input_builder` is not in the
sources at hand; only its tests are).  Section 4.3's per-opcode-class rules
in the spec's stated priority order: raw errors pass through rule 8's fixed
mapping; a call-family or creation opcode with a zero observed result is
checked for depth limit first, then insufficient balance, then (creations
only) address collision; an unwinding JUMP/JUMPI with zero result is an
invalid jump; REVERT is a deliberate, successful exit; an unwinding
RETURNDATACOPY with zero result is return-data out of bounds; a RETURN
inside a creation frame is checked for code-store out of gas, then the
invalid first code byte, then the maximum code size; a state-mutating opcode
in a static frame with a zero same-depth result is a write-protection error;
everything else is success. -/
def get_step_err (step : GethExecStep) (next : Option GethExecStep)
    (ctx : StepContext) : Option ExecError :=
  match step.error with
  | some e => some (mapGethError e)
  | none =>
    let nextDepth := (next.map (fun s => s.depth)).getD 0
    let res := result next
    if isCallOrCreateOp step.op then
      if res == 0 then
        if step.depth == 1025 then
          some (.depth (depthKind step.op))
        else if callValue step != 0 && decide (ctx.callerBalance < callValue step) then
          some (.insufficientBalance (balanceKind step.op))
        else if isCreateOp step.op && ctx.createCollision then
          some (.contractAddressCollision (collisionKind step.op))
        else none
      else none
    else if step.op == .JUMP || step.op == .JUMPI then
      if res == 0 && step.depth != nextDepth then some .invalidJump else none
    else if step.op == .REVERT then
      none
    else if step.op == .RETURNDATACOPY then
      if res == 0 && step.depth != nextDepth then some .returnDataOutOfBounds else none
    else if step.op == .RETURN && ctx.isCreateFrame then
      if decide (step.gas < 200 * nthLast step.stack 1) then
        some .codeStoreOutOfGas
      else if decide (0 < nthLast step.stack 1)
          && step.memory[nthLast step.stack 0]? == some INVALID_CODE_FIRST_BYTE then
        some .invalidCreationCode
      else if decide (MAX_CODE_SIZE < nthLast step.stack 1) then
        some .maxCodeSizeExceeded
      else none
    else if isStateMutatingOp step.op && ctx.isStaticFrame then
      if res == 0 && step.depth == nextDepth then some .writeProtection else none
    else none

/-! ## Lemmas on the association-list operations -/

theorem lookupA_insertA {α β : Type} [DecidableEq α] (k₁ k₂ : α) (v : β)
    (l : List (α × β)) :
    lookupA k₁ (insertA k₂ v l) = if k₂ = k₁ then some v else lookupA k₁ l := by
  induction l with
  | nil => simp [lookupA, insertA]
  | cons hd t ih =>
    obtain ⟨k', v'⟩ := hd
    by_cases hk : k' = k₂
    · subst hk
      by_cases h12 : k' = k₁ <;> simp [lookupA, insertA, h12]
    · by_cases h1 : k' = k₁
      · subst h1
        by_cases h21 : k' = k₂
        · exact absurd h21 hk
        · simp [lookupA, insertA, hk, Ne.symm hk]
      · simp [lookupA, insertA, hk, h1, ih]

theorem lookupA_insertA_self {α β : Type} [DecidableEq α] (k : α) (v : β)
    (l : List (α × β)) : lookupA k (insertA k v l) = some v := by
  simp [lookupA_insertA]

theorem lookupA_insertA_ne {α β : Type} [DecidableEq α] {k₁ k₂ : α} (v : β)
    (l : List (α × β)) (h : k₂ ≠ k₁) :
    lookupA k₁ (insertA k₂ v l) = lookupA k₁ l := by
  simp [lookupA_insertA, h]

theorem insertA_id {α β : Type} [DecidableEq α] {k : α} {v : β}
    {l : List (α × β)} (h : lookupA k l = some v) : insertA k v l = l := by
  induction l with
  | nil => simp [lookupA] at h
  | cons hd t ih =>
    obtain ⟨k', v'⟩ := hd
    by_cases hk : k' = k
    · subst hk
      simp [lookupA] at h
      simp [insertA, h]
    · simp [lookupA, hk] at h
      simp [insertA, hk, ih h]

theorem lookupA_modifyA {α β : Type} [DecidableEq α] (k₁ k₂ : α) (f : β → β)
    (l : List (α × β)) :
    lookupA k₁ (modifyA k₂ f l) =
      if k₂ = k₁ then (lookupA k₁ l).map f else lookupA k₁ l := by
  induction l with
  | nil => simp [lookupA, modifyA]
  | cons hd t ih =>
    obtain ⟨k', v'⟩ := hd
    by_cases hk : k' = k₂
    · subst hk
      by_cases h12 : k' = k₁ <;> simp [lookupA, modifyA, h12]
    · by_cases h1 : k' = k₁
      · subst h1
        simp [lookupA, modifyA, hk, Ne.symm hk]
      · simp [lookupA, modifyA, hk, h1, ih]

theorem lookupA_vivify_self (a : Nat) (st : List (Nat × Account)) :
    lookupA a (vivify a st) = some ((lookupA a st).getD Account.zero) := by
  unfold vivify
  cases h : lookupA a st with
  | some acc => simp [h]
  | none => simp [lookupA_insertA_self]

theorem lookupA_vivify_ne {a a' : Nat} (st : List (Nat × Account)) (h : a' ≠ a) :
    lookupA a (vivify a' st) = lookupA a st := by
  unfold vivify
  cases h' : lookupA a' st with
  | some acc => rfl
  | none => exact lookupA_insertA_ne _ _ h

theorem vivify_of_some {a : Nat} {st : List (Nat × Account)} {acc : Account}
    (h : lookupA a st = some acc) : vivify a st = st := by
  unfold vivify
  simp [h]

/-- Committed-storage lookup on a raw account map: the value at `key` in the
storage of the account at `addr`, when both exist. -/
def committedLookup (addr key : Nat) (st : List (Nat × Account)) : Option Nat :=
  match lookupA addr st with
  | some acc => lookupA key acc.storage
  | none => none

theorem get_committed_storage_eq (s : StateDB) (addr key : Nat) :
    s.get_committed_storage addr key =
      match committedLookup addr key s.state with
      | some v => (true, v)
      | none => (false, 0) := by
  unfold StateDB.get_committed_storage StateDB.get_account committedLookup
  cases h : lookupA addr s.state with
  | some acc => simp
  | none => simp [Account.zero, lookupA]

theorem insertA_insertA {α β : Type} [DecidableEq α] (k : α) (v₁ v₂ : β)
    (l : List (α × β)) : insertA k v₂ (insertA k v₁ l) = insertA k v₂ l := by
  induction l with
  | nil => simp [insertA]
  | cons hd t ih =>
    obtain ⟨k', v'⟩ := hd
    by_cases hk : k' = k
    · simp [insertA, hk]
    · simp [insertA, hk, ih]


theorem vivifyStorage_eq (a k : Nat) (st : List (Nat × Account)) :
    vivifyStorage a k st =
      match lookupA a st with
      | none => insertA a { Account.zero with storage := [(k, 0)] } st
      | some acc =>
        match lookupA k acc.storage with
        | some _ => st
        | none => insertA a { acc with storage := insertA k 0 acc.storage } st := by
  unfold vivifyStorage vivify
  cases h : lookupA a st with
  | none =>
    simp only [h, lookupA_insertA_self]
    show (match lookupA k Account.zero.storage with
      | some _ => insertA a Account.zero st
      | none => insertA a { Account.zero with storage := insertA k 0 Account.zero.storage }
          (insertA a Account.zero st)) = _
    simp only [Account.zero, lookupA, insertA_insertA]
    rfl
  | some acc => simp only [h]

theorem lookupA_vivifyStorage_self (a k : Nat) (st : List (Nat × Account)) :
    ∃ acc, lookupA a (vivifyStorage a k st) = some acc := by
  rw [vivifyStorage_eq]
  split
  · exact ⟨_, lookupA_insertA_self a _ st⟩
  · rename_i acc heq
    split
    · exact ⟨acc, heq⟩
    · exact ⟨_, lookupA_insertA_self a _ st⟩

theorem lookupA_vivifyStorage_ne {a' a : Nat} (k' : Nat)
    (st : List (Nat × Account)) (h : a' ≠ a) :
    lookupA a (vivifyStorage a' k' st) = lookupA a st := by
  rw [vivifyStorage_eq]
  split
  · exact lookupA_insertA_ne _ st h
  · split
    · rfl
    · exact lookupA_insertA_ne _ st h

theorem committedLookup_commitDirtyStep_self (a k v : Nat)
    (st : List (Nat × Account)) :
    committedLookup a k (commitDirtyStepState a k v st) = some v := by
  unfold commitDirtyStepState committedLookup
  rw [lookupA_modifyA, if_pos rfl]
  obtain ⟨acc, hacc⟩ := lookupA_vivifyStorage_self a k st
  rw [hacc]
  exact lookupA_insertA_self k v acc.storage

theorem committedLookup_commitDirtyStep_ne {a' k' a k : Nat} (v : Nat)
    (st : List (Nat × Account)) (h : (a', k') ≠ (a, k)) :
    committedLookup a k (commitDirtyStepState a' k' v st) = committedLookup a k st := by
  unfold commitDirtyStepState committedLookup
  by_cases ha : a' = a
  · subst ha
    have hk : k' ≠ k := fun hk => h (by rw [hk])
    rw [lookupA_modifyA, if_pos rfl, vivifyStorage_eq]
    cases h1 : lookupA a' st with
    | none =>
      simp only [h1]
      rw [lookupA_insertA_self]
      show lookupA k (insertA k' v [(k', 0)]) = none
      simp [insertA, lookupA, hk]
    | some acc =>
      simp only [h1]
      cases h2 : lookupA k' acc.storage with
      | some w =>
        simp only [h2]
        rw [h1]
        show lookupA k (insertA k' v acc.storage) = lookupA k acc.storage
        exact lookupA_insertA_ne v acc.storage hk
      | none =>
        simp only [h2]
        rw [lookupA_insertA_self]
        show lookupA k (insertA k' v (insertA k' 0 acc.storage)) = lookupA k acc.storage
        rw [insertA_insertA]
        exact lookupA_insertA_ne v acc.storage hk
  · rw [lookupA_modifyA, if_neg ha, lookupA_vivifyStorage_ne _ _ ha]

theorem committedLookup_dirtyFold_frame {a k : Nat}
    (l : List ((Nat × Nat) × Nat)) (st : List (Nat × Account))
    (h : ∀ e ∈ l, e.1 ≠ (a, k)) :
    committedLookup a k (dirtyFold st l) = committedLookup a k st := by
  induction l generalizing st with
  | nil => rfl
  | cons hd t ih =>
    have hhd : (hd.1.1, hd.1.2) ≠ (a, k) := by
      have := h hd (List.mem_cons_self hd t)
      simpa using this
    have step : committedLookup a k (commitDirtyStepState hd.1.1 hd.1.2 hd.2 st) =
        committedLookup a k st :=
      committedLookup_commitDirtyStep_ne hd.2 st hhd
    show committedLookup a k (dirtyFold (commitDirtyStepState hd.1.1 hd.1.2 hd.2 st) t) = _
    rw [ih _ (fun e he => h e (List.mem_cons_of_mem hd he)), step]

theorem committedLookup_dirtyFold_mem {a k v : Nat}
    (l : List ((Nat × Nat) × Nat)) (st : List (Nat × Account))
    (hnd : (l.map Prod.fst).Nodup) (hmem : ((a, k), v) ∈ l) :
    committedLookup a k (dirtyFold st l) = some v := by
  induction l generalizing st with
  | nil => cases hmem
  | cons hd t ih =>
    rw [List.map_cons] at hnd
    rcases List.mem_cons.mp hmem with heq | ht
    · subst heq
      show committedLookup a k (dirtyFold (commitDirtyStepState a k v st) t) = some v
      have hfr : ∀ e ∈ t, e.1 ≠ (a, k) := by
        intro e he hcon
        have hin : (a, k) ∈ t.map Prod.fst := by
          rw [← hcon]
          exact List.mem_map_of_mem Prod.fst he
        exact (List.nodup_cons.mp hnd).1 hin
      rw [committedLookup_dirtyFold_frame t _ hfr]
      exact committedLookup_commitDirtyStep_self a k v st
    · show committedLookup a k (dirtyFold (commitDirtyStepState hd.1.1 hd.1.2 hd.2 st) t)
        = some v
      exact ih _ (List.nodup_cons.mp hnd).2 ht

theorem lookupA_zeroDestructed_self (a : Nat) (st : List (Nat × Account)) :
    lookupA a (zeroDestructedState a st) = some Account.zero :=
  lookupA_insertA_self a Account.zero (vivify a st)

theorem lookupA_zeroDestructed_ne {a' a : Nat} (st : List (Nat × Account))
    (h : a' ≠ a) :
    lookupA a (zeroDestructedState a' st) = lookupA a st := by
  unfold zeroDestructedState
  rw [lookupA_insertA_ne _ _ h, lookupA_vivify_ne _ h]

theorem lookupA_destructedFold_preserve {a : Nat}
    (l : List Nat) (st : List (Nat × Account))
    (h : lookupA a st = some Account.zero) :
    lookupA a (destructedFold st l) = some Account.zero := by
  induction l generalizing st with
  | nil => exact h
  | cons hd t ih =>
    show lookupA a (destructedFold (zeroDestructedState hd st) t) = some Account.zero
    by_cases hhd : hd = a
    · subst hhd
      exact ih _ (lookupA_zeroDestructed_self hd st)
    · refine ih _ ?_
      rw [lookupA_zeroDestructed_ne st hhd]
      exact h

theorem lookupA_destructedFold_mem {a : Nat}
    (l : List Nat) (st : List (Nat × Account)) (h : a ∈ l) :
    lookupA a (destructedFold st l) = some Account.zero := by
  induction l generalizing st with
  | nil => cases h
  | cons hd t ih =>
    show lookupA a (destructedFold (zeroDestructedState hd st) t) = some Account.zero
    rcases List.mem_cons.mp h with heq | ht
    · subst heq
      exact lookupA_destructedFold_preserve t _ (lookupA_zeroDestructed_self a st)
    · exact ih _ ht

theorem lookupA_destructedFold_not_mem {a : Nat}
    (l : List Nat) (st : List (Nat × Account)) (h : a ∉ l) :
    lookupA a (destructedFold st l) = lookupA a st := by
  induction l generalizing st with
  | nil => rfl
  | cons hd t ih =>
    show lookupA a (destructedFold (zeroDestructedState hd st) t) = lookupA a st
    have hhd : hd ≠ a := fun he => h (he ▸ List.mem_cons_self hd t)
    rw [ih _ (fun ht => h (List.mem_cons_of_mem hd ht)), lookupA_zeroDestructed_ne st hhd]

theorem destructedFold_id (l : List Nat) (st : List (Nat × Account))
    (h : ∀ a ∈ l, lookupA a st = some Account.zero) :
    destructedFold st l = st := by
  induction l generalizing st with
  | nil => rfl
  | cons hd t ih =>
    have hhd : lookupA hd st = some Account.zero := h hd (List.mem_cons_self hd t)
    have hstep : zeroDestructedState hd st = st := by
      unfold zeroDestructedState
      rw [vivify_of_some hhd]
      exact insertA_id hhd
    show destructedFold (zeroDestructedState hd st) t = st
    rw [hstep]
    exact ih st (fun a ha => h a (List.mem_cons_of_mem hd ha))

theorem mem_of_lookupA {α β : Type} [DecidableEq α] {k : α} {v : β}
    {l : List (α × β)} (h : lookupA k l = some v) : (k, v) ∈ l := by
  induction l with
  | nil => simp [lookupA] at h
  | cons hd t ih =>
    obtain ⟨k', v'⟩ := hd
    by_cases hk : k' = k
    · subst hk
      simp [lookupA] at h
      subst h
      exact List.mem_cons_self _ t
    · simp [lookupA, hk] at h
      exact List.mem_cons_of_mem _ (ih h)

theorem mem_insertS {α : Type} [DecidableEq α] (x : α) (l : List α) :
    x ∈ insertS x l := by
  unfold insertS
  split
  · assumption
  · exact List.mem_cons_self x l

theorem committedLookup_destructedFold_not_mem {a : Nat} (k : Nat)
    (l : List Nat) (st : List (Nat × Account)) (h : a ∉ l) :
    committedLookup a k (destructedFold st l) = committedLookup a k st := by
  unfold committedLookup
  rw [lookupA_destructedFold_not_mem l st h]

/-! ## The claims -/

/-- C6: for every `(address, key)`, `get_storage` returns `(true, v)` when a
dirty (pending) write `v` exists, else the committed value with `found=true`
when the committed account storage has the key, else `(false, 0)`;
`get_committed_storage` never consults the dirty set (replacing the dirty
map leaves it unchanged); and `set_storage` writes only into the dirty set,
never into the committed account map. -/
theorem get_storage_dirty_shadowing (s : StateDB) (addr key value : Nat) :
    (∀ v, lookupA (addr, key) s.dirty_storage = some v →
      s.get_storage addr key = (true, v)) ∧
    (lookupA (addr, key) s.dirty_storage = none →
      s.get_storage addr key = s.get_committed_storage addr key) ∧
    (∀ v, lookupA key (s.get_account addr).2.storage = some v →
      s.get_committed_storage addr key = (true, v)) ∧
    (lookupA key (s.get_account addr).2.storage = none →
      s.get_committed_storage addr key = (false, 0)) ∧
    (∀ d, StateDB.get_committed_storage { s with dirty_storage := d } addr key =
      s.get_committed_storage addr key) ∧
    (s.set_storage addr key value).state = s.state ∧
    (s.set_storage addr key value).dirty_storage
      = insertA (addr, key) value s.dirty_storage ∧
    (s.set_storage addr key value).transient_storage = s.transient_storage := by
  refine ⟨fun v h => ?_, fun h => ?_, fun v h => ?_, fun h => ?_, fun d => ?_, rfl, rfl, rfl⟩
  · unfold StateDB.get_storage
    rw [h]
  · unfold StateDB.get_storage
    rw [h]
  · unfold StateDB.get_committed_storage
    rw [h]
  · unfold StateDB.get_committed_storage
    rw [h]
  · unfold StateDB.get_committed_storage StateDB.get_account
    rfl

/-- C6 witness: on a concrete database the dirty write shadows the committed
value, and the committed read still sees the old value. -/
theorem get_storage_dirty_shadowing_witness :
    (StateDB.get_storage
      { StateDB.new with
          state := [(1, { Account.zero with storage := [(2, 7)] })],
          dirty_storage := [((1, 2), 5)] } 1 2 = (true, 5)) ∧
    (StateDB.get_committed_storage
      { StateDB.new with
          state := [(1, { Account.zero with storage := [(2, 7)] })],
          dirty_storage := [((1, 2), 5)] } 1 2 = (true, 7)) := by
  have h := get_storage_dirty_shadowing
    { StateDB.new with
        state := [(1, { Account.zero with storage := [(2, 7)] })],
        dirty_storage := [((1, 2), 5)] } 1 2 0
  exact ⟨h.1 5 (by decide), h.2.2.1 7 (by decide)⟩

/-- A concrete database whose destructed-account set is nonempty, used to
test what `commit_tx` does to that set. -/
def destructedExample : StateDB :=
  { StateDB.new with
      state := [(9, { Account.zero with nonce := 3, balance := 42 })],
      destructed_account := [9] }

/-- C2 counterexample: `commit_tx` does not reset the destructed-account
set — after committing a database whose destructed set is `[9]`, the set is
still `[9]`, not empty.  (The source clears the two access lists, the dirty
map and the touched set, and only overwrites the destructed accounts with
zero accounts; it never clears `destructed_account` itself.) -/
theorem commit_tx_destructed_set_cex :
    destructedExample.commit_tx.destructed_account = [9] ∧
    destructedExample.commit_tx.destructed_account ≠ [] := by
  constructor
  · rfl
  · decide

/-- C2 (amended): `commit_tx` folds every pending dirty-storage write into
the committed per-account storage (for addresses not also destructed, whose
accounts are zeroed afterwards), resets the four transaction-scoped sets
that it does reset (the account access list, the storage-slot access list,
the dirty-storage map and the touched-account set), replaces every account
in the destructed-account set with a zero account while leaving the
destructed-account set itself unchanged, and resets the refund counter
to 0. -/
theorem commit_tx_amended (s : StateDB) :
    s.commit_tx.access_list_account = [] ∧
    s.commit_tx.access_list_account_storage = [] ∧
    s.commit_tx.dirty_storage = [] ∧
    s.commit_tx.touched_account = [] ∧
    s.commit_tx.refund = 0 ∧
    s.commit_tx.destructed_account = s.destructed_account ∧
    (∀ addr ∈ s.destructed_account,
      s.commit_tx.get_account addr = (true, Account.zero)) ∧
    ((s.dirty_storage.map Prod.fst).Nodup →
      ∀ addr key v, lookupA (addr, key) s.dirty_storage = some v →
        addr ∉ s.destructed_account →
        s.commit_tx.get_committed_storage addr key = (true, v)) := by
  refine ⟨rfl, rfl, rfl, rfl, rfl, rfl, fun addr ha => ?_, fun hnd addr key v hv hnd2 => ?_⟩
  · unfold StateDB.get_account
    have : lookupA addr s.commit_tx.state = some Account.zero := by
      show lookupA addr
        (destructedFold (dirtyFold s.state s.dirty_storage) s.destructed_account)
        = some Account.zero
      exact lookupA_destructedFold_mem _ _ ha
    rw [this]
  · rw [get_committed_storage_eq]
    have : committedLookup addr key s.commit_tx.state = some v := by
      show committedLookup addr key
        (destructedFold (dirtyFold s.state s.dirty_storage) s.destructed_account)
        = some v
      rw [committedLookup_destructedFold_not_mem key _ _ hnd2]
      exact committedLookup_dirtyFold_mem _ _ hnd (mem_of_lookupA hv)
    rw [this]

/-- C2 witness: on a concrete database with one dirty write and one
destructed address, the committed read after `commit_tx` sees the folded
write and the destructed account is zero. -/
theorem commit_tx_amended_witness :
    (StateDB.get_committed_storage
      (StateDB.commit_tx
        { StateDB.new with dirty_storage := [((1, 2), 5)], destructed_account := [9] })
      1 2 = (true, 5)) ∧
    (StateDB.get_account
      (StateDB.commit_tx
        { StateDB.new with dirty_storage := [((1, 2), 5)], destructed_account := [9] })
      9 = (true, Account.zero)) := by
  have h := commit_tx_amended
    { StateDB.new with dirty_storage := [((1, 2), 5)], destructed_account := [9] }
  exact ⟨h.2.2.2.2.2.2.2 (by decide) 1 2 5 (by decide) (by decide),
    h.2.2.2.2.2.2.1 9 (by decide)⟩

/-- C3: after `destruct_account(addr)`, a `get_account(addr)` performed
after `commit_tx` returns a zero account, while a read of the same address
from the alternate state database that never saw the destruct and never
called `commit_tx` still returns the pre-destruct account — the zeroing
becomes durable only at `commit_tx`, so a revert can restore the
pre-destruct account. -/
theorem destruct_account_commit_vs_alternate (s : StateDB) (addr : Nat)
    (acc : Account) (h : s.get_account addr = (true, acc)) :
    (s.destruct_account addr).commit_tx.get_account addr = (true, Account.zero) ∧
    s.get_account addr = (true, acc) := by
  refine ⟨?_, h⟩
  unfold StateDB.get_account
  have hmem : addr ∈ (s.destruct_account addr).destructed_account :=
    mem_insertS addr s.destructed_account
  have : lookupA addr (s.destruct_account addr).commit_tx.state = some Account.zero := by
    show lookupA addr
      (destructedFold
        (dirtyFold (s.destruct_account addr).state (s.destruct_account addr).dirty_storage)
        (s.destruct_account addr).destructed_account)
      = some Account.zero
    exact lookupA_destructedFold_mem _ _ hmem
  rw [this]

/-- C3 witness: a concrete account with nonce 3 and balance 42 is read as
zero after destruct-and-commit, while the untouched database still returns
it. -/
theorem destruct_account_commit_vs_alternate_witness :
    (StateDB.get_account
      (StateDB.commit_tx (StateDB.destruct_account
        { StateDB.new with
            state := [(9, { Account.zero with nonce := 3, balance := 42 })] } 9)) 9
      = (true, Account.zero)) ∧
    (StateDB.get_account
      { StateDB.new with
          state := [(9, { Account.zero with nonce := 3, balance := 42 })] } 9
      = (true, { Account.zero with nonce := 3, balance := 42 })) := by
  have h := destruct_account_commit_vs_alternate
    { StateDB.new with
        state := [(9, { Account.zero with nonce := 3, balance := 42 })] } 9
    { Account.zero with nonce := 3, balance := 42 } (by decide)
  exact ⟨h.1, h.2⟩

/-- C7: transient storage is isolated from transaction commitment:
`commit_tx` leaves the transient map unchanged; a `set_transient_storage`
changes neither the committed account map directly nor the committed account
map produced by `commit_tx`; and after `clear_transient_storage` every
transient read returns `(false, 0)`. -/
theorem transient_storage_isolated (s : StateDB) (addr key value a2 k2 : Nat) :
    s.commit_tx.transient_storage = s.transient_storage ∧
    (s.set_transient_storage addr key value).commit_tx.state = s.commit_tx.state ∧
    (s.set_transient_storage addr key value).state = s.state ∧
    (s.set_transient_storage addr key value).commit_tx.transient_storage
      = insertA (addr, key) value s.transient_storage ∧
    s.clear_transient_storage.get_transient_storage a2 k2 = (false, 0) := by
  exact ⟨rfl, rfl, rfl, rfl, rfl⟩

/-- C9: calling `commit_tx` twice in immediate succession leaves the state
database exactly as after calling it once — the second call is the identity
on the committed accounts, every transaction-scoped field and the refund
counter. -/
theorem commit_tx_idempotent (s : StateDB) :
    s.commit_tx.commit_tx = s.commit_tx := by
  have hzero : ∀ a ∈ s.destructed_account,
      lookupA a (destructedFold (dirtyFold s.state s.dirty_storage)
        s.destructed_account) = some Account.zero :=
    fun a ha => lookupA_destructedFold_mem _ _ ha
  show StateDB.commit_tx
    { state := destructedFold (dirtyFold s.state s.dirty_storage) s.destructed_account,
      access_list_account := [],
      access_list_account_storage := [],
      dirty_storage := [],
      transient_storage := s.transient_storage,
      destructed_account := s.destructed_account,
      touched_account := [],
      refund := 0 } = s.commit_tx
  unfold StateDB.commit_tx
  simp only []
  rw [show dirtyFold
      (destructedFold (dirtyFold s.state s.dirty_storage) s.destructed_account) [] =
      destructedFold (dirtyFold s.state s.dirty_storage) s.destructed_account from rfl]
  rw [destructedFold_id _ _ hzero]

/-- C10: for every account satisfying the emptiness predicate —
including the shared zero account `get_account` returns for a missing
address — `code_hash_read` returns the all-zero hash while the stored
`code_hash` field equals the nonzero empty-code-hash constant; for any
non-empty account `code_hash_read` returns the stored `code_hash`
unchanged; and `Account.zero` always satisfies `is_empty`. -/
theorem code_hash_read_spec (acc : Account) (s : StateDB) (addr : Nat) :
    (acc.is_empty = true →
      acc.code_hash_read = 0 ∧ acc.code_hash = EMPTY_CODE_HASH) ∧
    (acc.is_empty = false → acc.code_hash_read = acc.code_hash) ∧
    EMPTY_CODE_HASH ≠ 0 ∧
    Account.zero.is_empty = true ∧
    (lookupA addr s.state = none →
      s.get_account addr = (false, Account.zero) ∧
      (s.get_account addr).2.code_hash_read = 0) := by
  refine ⟨fun h => ⟨?_, ?_⟩, fun h => ?_, by decide, by decide, fun h => ?_⟩
  · unfold Account.code_hash_read
    rw [h]
    rfl
  · unfold Account.is_empty at h
    simp only [Bool.and_eq_true, beq_iff_eq] at h
    exact h.2
  · unfold Account.code_hash_read
    rw [h]
    rfl
  · have hga : s.get_account addr = (false, Account.zero) := by
      unfold StateDB.get_account
      rw [h]
    refine ⟨hga, ?_⟩
    rw [hga]
    decide

/-- C10 witness: a concrete database missing address 3 yields the zero
account, whose read code hash is 0 although its stored code hash is the
nonzero empty-code hash; a concrete non-empty account reads its own hash. -/
theorem code_hash_read_spec_witness :
    (Account.is_empty { Account.zero with nonce := 1 } = false →
      Account.code_hash_read { Account.zero with nonce := 1 }
        = Account.code_hash { Account.zero with nonce := 1 }) ∧
    (StateDB.get_account { StateDB.new with state := [(1, Account.zero)] } 3
      = (false, Account.zero)) ∧
    (Account.code_hash_read
      (StateDB.get_account { StateDB.new with state := [(1, Account.zero)] } 3).2 = 0) := by
  have h := code_hash_read_spec { Account.zero with nonce := 1 }
    { StateDB.new with state := [(1, Account.zero)] } 3
  have h2 := (h.2.2.2.2 (by decide))
  exact ⟨h.2.1, h2.1, h2.2⟩

/-- C1: for a call-family or creation opcode step with no reported raw
error and a zero result observed on the following step, call depth already
at 1025 classifies the step as a depth-limit error, for every context —
in particular for a context in which the insufficient-balance condition
also holds, so the depth check takes priority over the balance check. -/
theorem get_step_err_depth_priority (step : GethExecStep)
    (next : Option GethExecStep) (ctx : StepContext)
    (h : check_err_depth step next = true) :
    get_step_err step next ctx = some (.depth (depthKind step.op)) := by
  unfold check_err_depth at h
  simp only [Bool.and_eq_true, beq_iff_eq] at h
  obtain ⟨⟨⟨hop, herr⟩, hres⟩, hdep⟩ := h
  have hop' : isCallOrCreateOp step.op = true := by
    unfold isCallOrCreateOp
    exact hop
  unfold get_step_err
  rw [herr]
  simp [hop', hres, hdep]

/-- C1 witness: a concrete CALL at depth 1025 with zero next result, in a
context whose caller balance (0) is below the transferred value (7), is
classified as the call depth-limit error. -/
theorem get_step_err_depth_priority_witness :
    (check_err_depth
      { op := .CALL, error := none, depth := 1025, gas := 100,
        stack := [0, 0, 0, 0, 7, 1, 50], memory := [] }
      (some { op := .PUSH2, error := none, depth := 1025, gas := 90,
              stack := [0], memory := [] }) = true) ∧
    (get_step_err
      { op := .CALL, error := none, depth := 1025, gas := 100,
        stack := [0, 0, 0, 0, 7, 1, 50], memory := [] }
      (some { op := .PUSH2, error := none, depth := 1025, gas := 90,
              stack := [0], memory := [] })
      { callerBalance := 0, isCreateFrame := false, isStaticFrame := false,
        createCollision := false }
      = some (.depth .call)) :=
  ⟨by decide,
   get_step_err_depth_priority
    { op := .CALL, error := none, depth := 1025, gas := 100,
      stack := [0, 0, 0, 0, 7, 1, 50], memory := [] }
    (some { op := .PUSH2, error := none, depth := 1025, gas := 90,
            stack := [0], memory := [] })
    { callerBalance := 0, isCreateFrame := false, isStaticFrame := false,
      createCollision := false }
    (by decide)⟩

/-- C8: a REVERT step with no reported raw error, a depth change across the
step boundary and a zero pushed result is classified as success (no error
kind), never as invalid-jump, return-data-out-of-bounds or any other kind
of the taxonomy. -/
theorem get_step_err_revert_success (step : GethExecStep)
    (next : Option GethExecStep) (ctx : StepContext)
    (h : check_err_execution_reverted step next = true) :
    get_step_err step next ctx = none := by
  unfold check_err_execution_reverted at h
  simp only [Bool.and_eq_true, beq_iff_eq, bne_iff_ne] at h
  obtain ⟨⟨⟨hop, herr⟩, hres⟩, hdep⟩ := h
  unfold get_step_err
  rw [herr, hop]
  simp [isCallOrCreateOp]

/-- C8 witness: a concrete REVERT unwinding from depth 2 to depth 1 with a
zero pushed result is classified as success. -/
theorem get_step_err_revert_success_witness :
    (check_err_execution_reverted
      { op := .REVERT, error := none, depth := 2, gas := 100,
        stack := [0, 0], memory := [] }
      (some { op := .PUSH2, error := none, depth := 1, gas := 90,
              stack := [0], memory := [] }) = true) ∧
    (get_step_err
      { op := .REVERT, error := none, depth := 2, gas := 100,
        stack := [0, 0], memory := [] }
      (some { op := .PUSH2, error := none, depth := 1, gas := 90,
              stack := [0], memory := [] })
      { callerBalance := 0, isCreateFrame := false, isStaticFrame := false,
        createCollision := false }
      = none) :=
  ⟨by decide,
   get_step_err_revert_success
    { op := .REVERT, error := none, depth := 2, gas := 100,
      stack := [0, 0], memory := [] }
    (some { op := .PUSH2, error := none, depth := 1, gas := 90,
            stack := [0], memory := [] })
    { callerBalance := 0, isCreateFrame := false, isStaticFrame := false,
      createCollision := false }
    (by decide)⟩

/-- C5: a RETURN executed inside a creation frame with no reported error
and a zero result on the following step, with deployed-code length `L` taken
from its second stack operand and remaining gas `G`: if `G < 200·L` the step
classifies as code-store-out-of-gas, and this check precedes both the
invalid-creation-code and the max-code-size checks; otherwise if the first
deployed byte is the reserved value `0xef` it classifies as
invalid-creation-code; otherwise if `L` exceeds `0x6000` it classifies as
max-code-size-exceeded; otherwise success. -/
theorem get_step_err_return_in_create (step : GethExecStep)
    (next : Option GethExecStep) (ctx : StepContext)
    (hop : step.op = .RETURN) (hframe : ctx.isCreateFrame = true)
    (herr : step.error = none) (hres : result next = 0) :
    (step.gas < 200 * nthLast step.stack 1 →
      get_step_err step next ctx = some .codeStoreOutOfGas) ∧
    (¬ step.gas < 200 * nthLast step.stack 1 →
      0 < nthLast step.stack 1 →
      step.memory[nthLast step.stack 0]? = some INVALID_CODE_FIRST_BYTE →
      get_step_err step next ctx = some .invalidCreationCode) ∧
    (¬ step.gas < 200 * nthLast step.stack 1 →
      ¬ (0 < nthLast step.stack 1 ∧
         step.memory[nthLast step.stack 0]? = some INVALID_CODE_FIRST_BYTE) →
      MAX_CODE_SIZE < nthLast step.stack 1 →
      get_step_err step next ctx = some .maxCodeSizeExceeded) ∧
    (¬ step.gas < 200 * nthLast step.stack 1 →
      ¬ (0 < nthLast step.stack 1 ∧
         step.memory[nthLast step.stack 0]? = some INVALID_CODE_FIRST_BYTE) →
      ¬ MAX_CODE_SIZE < nthLast step.stack 1 →
      get_step_err step next ctx = none) := by
  have hred : get_step_err step next ctx =
      (if decide (step.gas < 200 * nthLast step.stack 1) then some .codeStoreOutOfGas
       else if decide (0 < nthLast step.stack 1)
           && (step.memory[nthLast step.stack 0]? == some INVALID_CODE_FIRST_BYTE)
         then some .invalidCreationCode
       else if decide (MAX_CODE_SIZE < nthLast step.stack 1)
         then some .maxCodeSizeExceeded
       else none) := by
    unfold get_step_err
    rw [herr, hop]
    simp [isCallOrCreateOp, hframe]
  refine ⟨fun h1 => ?_, fun h1 h2 h3 => ?_, fun h1 hnot h3 => ?_, fun h1 hnot h4 => ?_⟩
  · rw [hred]
    simp [h1]
  · rw [hred]
    simp [h1, h2, h3]
  · have hguard : (decide (0 < nthLast step.stack 1)
        && (step.memory[nthLast step.stack 0]? == some INVALID_CODE_FIRST_BYTE))
        = false := by
      by_cases hL : 0 < nthLast step.stack 1
      · by_cases hm : step.memory[nthLast step.stack 0]?
            = some INVALID_CODE_FIRST_BYTE
        · exact absurd ⟨hL, hm⟩ hnot
        · simp [hm]
      · simp [hL]
    rw [hred]
    simp [h1, hguard, h3]
  · have hguard : (decide (0 < nthLast step.stack 1)
        && (step.memory[nthLast step.stack 0]? == some INVALID_CODE_FIRST_BYTE))
        = false := by
      by_cases hL : 0 < nthLast step.stack 1
      · by_cases hm : step.memory[nthLast step.stack 0]?
            = some INVALID_CODE_FIRST_BYTE
        · exact absurd ⟨hL, hm⟩ hnot
        · simp [hm]
      · simp [hL]
    rw [hred]
    simp [h1, hguard, h4]

/-- C5 witness: a concrete RETURN in a creation frame returning 64 bytes
with only 100 gas left (100 < 200·64) is classified as
code-store-out-of-gas. -/
theorem get_step_err_return_in_create_witness :
    get_step_err
      { op := .RETURN, error := none, depth := 2, gas := 100,
        stack := [64, 0], memory := [0, 0] }
      (some { op := .PUSH2, error := none, depth := 1, gas := 90,
              stack := [0], memory := [] })
      { callerBalance := 0, isCreateFrame := true, isStaticFrame := false,
        createCollision := false }
      = some .codeStoreOutOfGas :=
  (get_step_err_return_in_create
    { op := .RETURN, error := none, depth := 2, gas := 100,
      stack := [64, 0], memory := [0, 0] }
    (some { op := .PUSH2, error := none, depth := 1, gas := 90,
            stack := [0], memory := [] })
    { callerBalance := 0, isCreateFrame := true, isStaticFrame := false,
      createCollision := false }
    rfl rfl rfl (by decide)).1 (by decide)

/-- The raw trace error `tracer_err_stack_overflow` pins on the 1025th
PUSH2 step: `GethExecError::StackOverflow { stack_len: 1024, limit: 1023 }`. -/
def stackOverflowErr : GethExecError := .stackOverflow 1024 1023

/-- C4 counterexample: the raw stack-overflow error the test asserts for
the 1025th push reports a `limit` field of 1023, not the claimed fixed
capacity limit of 1024. -/
theorem stack_overflow_limit_cex :
    stackOverflowErr.stackLimit = some 1023 ∧
    stackOverflowErr.stackLimit ≠ some 1024 := by
  decide

/-- C4 (amended): when 1025 values are pushed by repeated stack-pushing
opcodes onto a stack with no remaining space, the 1025th push carries the
raw error `StackOverflow { stack_len: 1024, limit: 1023 }` and is classified
as stack-overflow; the raw error reports a stack length of 1024 against a
`limit` field of 1023 (not a capacity limit of 1024). -/
theorem get_step_err_stack_overflow (step : GethExecStep)
    (next : Option GethExecStep) (ctx : StepContext)
    (h : step.error = some stackOverflowErr) :
    get_step_err step next ctx = some .stackOverflow ∧
    step.error.bind GethExecError.stackLimit = some 1023 ∧
    step.error.bind GethExecError.stackLen = some 1024 := by
  unfold get_step_err
  rw [h]
  exact ⟨rfl, rfl, rfl⟩

/-- C4 witness: the concrete 1025th PUSH2 step of the overflow trace, at
depth 1 with the raw overflow error attached, is classified as
stack-overflow with reported stack length 1024 and limit 1023. -/
theorem get_step_err_stack_overflow_witness :
    (get_step_err
      { op := .PUSH2, error := some stackOverflowErr, depth := 1, gas := 100,
        stack := List.replicate 1024 0, memory := [] }
      none
      { callerBalance := 0, isCreateFrame := false, isStaticFrame := false,
        createCollision := false }
      = some .stackOverflow) ∧
    ((some stackOverflowErr).bind GethExecError.stackLimit = some 1023) :=
  ⟨(get_step_err_stack_overflow
      { op := .PUSH2, error := some stackOverflowErr, depth := 1, gas := 100,
        stack := List.replicate 1024 0, memory := [] }
      none
      { callerBalance := 0, isCreateFrame := false, isStaticFrame := false,
        createCollision := false }
      rfl).1,
   (get_step_err_stack_overflow
      { op := .PUSH2, error := some stackOverflowErr, depth := 1, gas := 100,
        stack := List.replicate 1024 0, memory := [] }
      none
      { callerBalance := 0, isCreateFrame := false, isStaticFrame := false,
        createCollision := false }
      rfl).2.1⟩
